import Mathlib

/-!
# Verification of the reservoir field-reporting client

A shallow embedding of the repository's core logic: the data service with
its local-cache fallback (`dataService` in the data service module), the
biometric authentication service (`authService.ts`: profile resolution,
device enrollment, face login, enrollment reset), the biometric gate
(`analyzeFaceForAccess` in the AI service module) and the automatic
verification loop of the `Auth` component.

External effects (the remote database/auth capability, the remote vision
model, `JSON.parse`/`atob` decoding of untrusted blobs) are modelled as
oracle parameters describing the outcome of each call; local storage is
explicit state; a thrown JS exception is an `Except.error`; a `try`/`catch`
block is a `match` on the `Except` produced by its body.
-/

namespace Reservoir

/-! ## Data model (`types.ts`) -/

inductive UserRole
  | SUPER_ADMIN
  | ADMIN
  | DATA_ENTRY_WORKER
deriving DecidableEq, Repr

inductive ReservoirStatus
  | NORMAL
  | WARNING
  | CRITICAL
  | SPILLING
deriving DecidableEq, Repr

structure Coordinates where
  latitude : Int
  longitude : Int
deriving DecidableEq, Repr

structure ReservoirEntry where
  id : String
  name : String
  locationName : String
  coordinates : Coordinates
  waterLevel : Int
  capacityPercentage : Int
  status : ReservoirStatus
  notes : String
  timestamp : Nat
  submittedBy : String
  isVerified : Bool
  geminiAnalysis : Option String
  groundingUrl : Option String
deriving DecidableEq, Repr

structure User where
  id : String
  name : String
  role : UserRole
  avatarUrl : String
deriving DecidableEq, Repr

/-! ## Data service (`dataService`)

The remote database rows use snake_case columns; `getEntries` maps them
back to the camelCase interface.  The outcome of each remote call is an
oracle value: either rows, or an error carrying the PostgREST error code
(`none` when the failure is an exception without a `code` field). -/

structure DbRow where
  id : String
  name : String
  location_name : String
  latitude : Int
  longitude : Int
  water_level : Int
  capacity_percentage : Int
  status : ReservoirStatus
  notes : String
  timestamp : Nat
  submitted_by : String
  is_verified : Bool
  gemini_analysis : Option String
  grounding_url : Option String
deriving DecidableEq, Repr

/-- Field mapping applied by `getEntries` to each remote row. -/
def mapDbRow (row : DbRow) : ReservoirEntry :=
  { id := row.id
    name := row.name
    locationName := row.location_name
    coordinates := { latitude := row.latitude, longitude := row.longitude }
    waterLevel := row.water_level
    capacityPercentage := row.capacity_percentage
    status := row.status
    notes := row.notes
    timestamp := row.timestamp
    submittedBy := row.submitted_by
    isVerified := row.is_verified
    geminiAnalysis := row.gemini_analysis
    groundingUrl := row.grounding_url }

/-- Reverse mapping applied by `addEntry` before the remote insert. -/
def toDbRow (entry : ReservoirEntry) : DbRow :=
  { id := entry.id
    name := entry.name
    location_name := entry.locationName
    latitude := entry.coordinates.latitude
    longitude := entry.coordinates.longitude
    water_level := entry.waterLevel
    capacity_percentage := entry.capacityPercentage
    status := entry.status
    notes := entry.notes
    timestamp := entry.timestamp
    submitted_by := entry.submittedBy
    is_verified := entry.isVerified
    gemini_analysis := entry.geminiAnalysis
    grounding_url := entry.groundingUrl }

/-- Outcome of a remote `select`: either rows, or a failure whose
PostgREST `code` is `some c` (an error object) or `none` (an exception
with no code). -/
inductive SelectRes
  | ok (rows : List DbRow)
  | failure (code : Option String)
deriving DecidableEq, Repr

/-- Outcome of a remote `insert`: success, an error object (with optional
code), or a thrown exception. -/
inductive InsertRes
  | ok
  | err (code : Option String) (message : String)
  | exn (message : String)
deriving DecidableEq, Repr

inductive Source
  | MYSQL
  | LOCAL
deriving DecidableEq, Repr

structure GetEntriesResult where
  data : List ReservoirEntry
  source : Source
  isMissingTable : Bool
deriving DecidableEq, Repr

/-- `dataService.getEntries`: remote read first; on success return mapped
rows tagged `MYSQL`; on any failure fall back to the local cache, setting
`isMissingTable` exactly when the error code is `PGRST205`. -/
def getEntries (remote : SelectRes) (cache : List ReservoirEntry) : GetEntriesResult :=
  match remote with
  | .ok rows => { data := rows.map mapDbRow, source := .MYSQL, isMissingTable := false }
  | .failure code =>
      let isMissingTable := code = some "PGRST205"
      { data := cache, source := .LOCAL, isMissingTable := isMissingTable }

/-- `dataService.addEntry`: best-effort remote insert of `toDbRow entry`
(the outcome only determines the `success` log flag), then an
unconditional prepend of the entry into the local cache.  Every remote
failure is caught, so the function is total: it returns the new cache and
the success flag rather than an `Except`. -/
def addEntry (remote : InsertRes) (cache : List ReservoirEntry) (entry : ReservoirEntry) :
    List ReservoirEntry × Bool :=
  let success := match remote with
    | .ok => true
    | .err _ _ => false
    | .exn _ => false
  (entry :: cache, success)

/-! ## Vault encoding (`enrollDevice`, step 4)

`btoa(JSON.stringify({email, password}))`: standard base64 over the
byte values of the serialized credential pair. -/

def base64Alphabet : List Char :=
  "ABCDEFGHIJKLMNOPQRSTUVWXYZabcdefghijklmnopqrstuvwxyz0123456789+/".toList

def b64Char (n : Nat) : Char := base64Alphabet.getD n 'A'

/-- Base64 of a byte list, with `=` padding, as `btoa` produces. -/
def b64Encode : List Nat → String
  | b1 :: b2 :: b3 :: rest =>
      String.mk [b64Char (b1 / 4), b64Char (b1 % 4 * 16 + b2 / 16),
        b64Char (b2 % 16 * 4 + b3 / 64), b64Char (b3 % 64)] ++ b64Encode rest
  | [b1, b2] =>
      String.mk [b64Char (b1 / 4), b64Char (b1 % 4 * 16 + b2 / 16),
        b64Char (b2 % 16 * 4), '=']
  | [b1] => String.mk [b64Char (b1 / 4), b64Char (b1 % 4 * 16), '=', '=']
  | [] => ""

def btoa (s : String) : String := b64Encode (s.toList.map Char.toNat)

/-- A JS string escape for the two characters `JSON.stringify` must quote
inside a string literal. -/
def jsonEscapeChar (c : Char) : String :=
  if c = '"' then "\\\"" else if c = '\\' then "\\\\" else String.mk [c]

def jsonQuote (s : String) : String :=
  "\"" ++ String.join (s.toList.map jsonEscapeChar) ++ "\""

/-- `JSON.stringify({email, password})`. -/
def jsonStringifyCreds (email password : String) : String :=
  "\x7b\"email\":" ++ jsonQuote email ++ ",\"password\":" ++ jsonQuote password ++ "\x7d"

/-- The blob `enrollDevice` writes under `lrw_biometric_vault`. -/
def vaultBlob (email password : String) : String :=
  btoa (jsonStringifyCreds email password)

/-! ## Local vault state (`localStorage` under `lrw_biometric_vault`) -/

/-- Device-local storage state: the value stored under the biometric
vault key, `none` when the key is absent. -/
structure AuthState where
  vault : Option String
deriving DecidableEq, Repr

/-- `authService.isDeviceEnrolled`: `!!localStorage.getItem(KEY)`.
JS coercion: `null` and the empty string are falsy. -/
def isDeviceEnrolled (st : AuthState) : Bool :=
  match st.vault with
  | none => false
  | some s => s ≠ ""

/-- `authService.resetEnrollment`: remove the vault key. -/
def resetEnrollment (_st : AuthState) : AuthState :=
  { vault := none }

/-! ## Profile resolver (`authService.getUserProfile`) -/

/-- A row of the remote `profiles` table. -/
structure ProfileRow where
  id : String
  name : String
  role : UserRole
  avatar_url : String
deriving DecidableEq, Repr

/-- Auth metadata attached to the authentication response, each field
possibly absent (or, for strings, empty — falsy in JS). -/
structure UserMetadata where
  name : Option String
  role : Option UserRole
  avatar_url : Option String
deriving DecidableEq, Repr

/-- JS `s || d` for an optional string: the default replaces both an
absent and an empty (falsy) value. -/
def jsOrStr (s : Option String) (d : String) : String :=
  match s with
  | none => d
  | some s => if s = "" then d else s

def maxAttempts : Nat := 5
def delayMs : Nat := 500

/-- Mapping from a `profiles` row to the app `User`. -/
def mapProfileRow (p : ProfileRow) : User :=
  { id := p.id, name := p.name, role := p.role, avatarUrl := p.avatar_url }

/-- The retry loop of `getUserProfile`: `fetch k` is the outcome of the
`k`-th remote read (`some row` on success).  `attempts` is the loop
counter, `remaining = maxAttempts - attempts` the attempts still
allowed.  Returns the result, the number of attempts performed, and the
list of sleeps taken (each `delayMs`, inserted only when another attempt
follows, mirroring `if (attempts < maxAttempts) await delay`). -/
def profilePollAux (fetch : Nat → Option ProfileRow) (attempts : Nat) :
    Nat → Option User × Nat × List Nat
  | 0 => (none, attempts, [])
  | remaining + 1 =>
      match fetch attempts with
      | some row => (some (mapProfileRow row), attempts + 1, [])
      | none =>
          if remaining = 0 then (none, attempts + 1, [])
          else
            let rest := profilePollAux fetch (attempts + 1) remaining
            (rest.1, rest.2.1, delayMs :: rest.2.2)

def profilePoll (fetch : Nat → Option ProfileRow) (attempts : Nat) :
    Option User × Nat × List Nat :=
  profilePollAux fetch attempts (maxAttempts - attempts)

def defaultAvatar : String :=
  "https://ui-avatars.com/api/?name=User&background=random"

def profileUnavailableMsg : String :=
  "Profile could not be loaded. Please try logging out and logging back in."

structure ProfileResult where
  appUser : Option User
  error : Option String
deriving DecidableEq, Repr

/-- The profile synthesized from auth metadata by the fallback branch. -/
def fallbackUser (userId : String) (meta : UserMetadata) : User :=
  { id := userId
    name := jsOrStr meta.name "Unknown User"
    role := meta.role.getD UserRole.DATA_ENTRY_WORKER
    avatarUrl := jsOrStr meta.avatar_url defaultAvatar }

/-- `authService.getUserProfile`: poll the `profiles` table up to
`maxAttempts` times; on first success return the mapped row; otherwise
use the auth-metadata fallback when supplied; otherwise fail. -/
def getUserProfile (fetch : Nat → Option ProfileRow) (userId : String)
    (fallback : Option UserMetadata) : ProfileResult :=
  match (profilePoll fetch 0).1 with
  | some u => { appUser := some u, error := none }
  | none =>
      match fallback with
      | some meta => { appUser := some (fallbackUser userId meta), error := none }
      | none => { appUser := none, error := some profileUnavailableMsg }

/-! ## Biometric gate (`analyzeFaceForAccess`)

The remote vision call is an oracle: it either rejects (a thrown
exception) or resolves with an optional text body.  `JSON.parse` is an
oracle from strings to optional verdicts (`none` models a parse throw).
All throws inside the `try` land in the `catch`, which returns the
service-unavailable verdict, so the function is total by construction. -/

structure Verdict where
  authorized : Bool
  reason : String
deriving DecidableEq, Repr

/-- Outcome of one `ai.models.generateContent` call. -/
inductive AiCallRes
  | throws (message : String)
  | responds (text : Option String)
deriving DecidableEq, Repr

/-- Strip of the `data:image/...;base64,` header (the anchored,
non-global `replace`), expressed over character lists. -/
def stripDataUrlHeader (s : String) : String :=
  let cs := s.toList
  let pngHeader := "data:image/png;base64,".toList
  let jpegHeader := "data:image/jpeg;base64,".toList
  let jpgHeader := "data:image/jpg;base64,".toList
  if cs.take pngHeader.length = pngHeader then String.mk (cs.drop pngHeader.length)
  else if cs.take jpegHeader.length = jpegHeader then String.mk (cs.drop jpegHeader.length)
  else if cs.take jpgHeader.length = jpgHeader then String.mk (cs.drop jpgHeader.length)
  else s

/-- The literal fed to `JSON.parse` when the response text is falsy. -/
def defaultVerdictJson : String :=
  "\x7b\"authorized\": false, \"reason\": \"No response from AI\"\x7d"

/-- What `JSON.parse` yields on `defaultVerdictJson`. -/
def defaultVerdict : Verdict :=
  { authorized := false, reason := "No response from AI" }

def serviceUnavailableVerdict : Verdict :=
  { authorized := false, reason := "Biometric Service Unavailable. Check connection." }

/-- Body of the `try` block of `analyzeFaceForAccess`. -/
def analyzeBody (call : AiCallRes) (parse : String → Option Verdict) :
    Except String Verdict :=
  match call with
  | .throws msg => .error msg
  | .responds text =>
      match parse (jsOrStr text defaultVerdictJson) with
      | some v => .ok v
      | none => .error "JSON parse error"

/-- `analyzeFaceForAccess`: clean the image, call the model, parse the
verdict; any failure is caught and reported as an unauthorized
service-unavailable verdict. -/
def analyzeFaceForAccess (call : String → AiCallRes) (parse : String → Option Verdict)
    (img : String) : Verdict :=
  let cleanBase64 := stripDataUrlHeader img
  match analyzeBody (call cleanBase64) parse with
  | .ok v => v
  | .error _ => serviceUnavailableVerdict

/-! ## Auth service flows (`signUp`, `signIn`, `enrollDevice`, `faceLogin`)

Each remote capability is an oracle in an `AuthEnv`; the flows also
return the list of external calls they made, used to state which remote
steps were (not) attempted. -/

structure CredPair where
  email : String
  password : String
deriving DecidableEq, Repr

/-- Outcome of `supabase.auth.signUp`. -/
inductive SignUpRes
  | ok
  | errConfig
  | errMsg (message : String)
  | noUser
deriving DecidableEq, Repr

/-- Outcome of `supabase.auth.signInWithPassword`. -/
inductive PwAuthRes
  | ok (userId : String) (meta : Option UserMetadata)
  | err (message : String)
  | noUser
deriving DecidableEq, Repr

def dbConfigErrorMsg : String :=
  "DATABASE CONFIG ERROR: The Supabase Trigger is crashing. Please run the provided 'schema.sql' script in your Supabase SQL Editor to fix this."

/-- `authService.signUp` (result part): throws on any auth error or a
missing user, with the 500 / `unexpected_failure` case getting the
config-error message. -/
def signUp (res : SignUpRes) : Except String Unit :=
  match res with
  | .ok => .ok ()
  | .errConfig => .error dbConfigErrorMsg
  | .errMsg m => .error (jsOrStr (some m) "Registration failed")
  | .noUser => .error "User creation failed"

/-- `authService.signIn`: password auth, then profile resolution with
the auth user's metadata as fallback. -/
def signIn (auth : PwAuthRes) (fetch : Nat → Option ProfileRow) : ProfileResult :=
  match auth with
  | .err m => { appUser := none, error := some m }
  | .noUser => { appUser := none, error := some "No user found" }
  | .ok uid meta => getUserProfile fetch uid meta

/-- Oracles for one run of an auth flow: the vision call and JSON parse,
the clock and the two `Math.random` draws, and the remote auth
capability.  `vaultDecode` is the outcome of `JSON.parse(atob blob)`. -/
structure AuthEnv where
  aiCall : String → AiCallRes
  aiParse : String → Option Verdict
  now : Nat
  rand1 : String
  rand2 : String
  signUpRes : String → String → String → UserRole → SignUpRes
  authRes : String → String → PwAuthRes
  profileFetch : Nat → Option ProfileRow
  vaultDecode : String → Option CredPair

/-- External calls an auth flow can make. -/
inductive Event
  | gateCall (img : String)
  | signUpCall (email password name : String) (role : UserRole)
  | signInCall (email password : String)
deriving DecidableEq, Repr

/-- The synthetic email: `officer.${timestamp}.${randomSuffix}@...`. -/
def generatedEmail (now : Nat) (rand1 : String) : String :=
  "officer." ++ toString now ++ "." ++ rand1 ++ "@lankareservoir.secure"

/-- The synthetic password: `SECURE_${timestamp}_${random}!@#`. -/
def generatedPassword (now : Nat) (rand2 : String) : String :=
  "SECURE_" ++ toString now ++ "_" ++ rand2 ++ "!@#"

/-- `authService.enrollDevice`: gate the face image, generate synthetic
credentials, register remotely, write the vault, then sign in.  Returns
the thrown error or the user, the device state after the run, and the
external calls made. -/
def enrollDevice (env : AuthEnv) (st : AuthState) (name : String) (role : UserRole)
    (img : String) : Except String User × AuthState × List Event :=
  let analysis := analyzeFaceForAccess env.aiCall env.aiParse img
  if !analysis.authorized then
    (.error ("Face Enrollment Failed: " ++ analysis.reason), st, [.gateCall img])
  else
    let email := generatedEmail env.now env.rand1
    let password := generatedPassword env.now env.rand2
    match signUp (env.signUpRes email password name role) with
    | .error e => (.error e, st, [.gateCall img, .signUpCall email password name role])
    | .ok _ =>
        let st' : AuthState := { vault := some (vaultBlob email password) }
        let login := signIn (env.authRes email password) env.profileFetch
        let evs := [.gateCall img, .signUpCall email password name role,
          .signInCall email password]
        match login.appUser, login.error with
        | some u, none => (.ok u, st', evs)
        | _, _ => (.error "Enrollment Login Failed", st', evs)

def vaultCorruptMsg : String := "Biometric Token Corrupted. Please Re-Enroll."

def notEnrolledMsg : String := "Device not enrolled. Please perform One-Time Setup."

/-- `authService.faceLogin`: require an enrolled vault, gate the image,
then inside one `try` decode the vault and sign in.  Any throw inside
the `try` (a decode failure, a sign-in error, or a missing user) is
caught and rethrown as the vault-corrupt message. -/
def faceLogin (env : AuthEnv) (st : AuthState) (img : String) :
    Except String User × List Event :=
  match st.vault with
  | none => (.error notEnrolledMsg, [])
  | some vault =>
      let analysis := analyzeFaceForAccess env.aiCall env.aiParse img
      if !analysis.authorized then
        (.error ("Access Denied: " ++ analysis.reason), [.gateCall img])
      else
        match env.vaultDecode vault with
        | none => (.error vaultCorruptMsg, [.gateCall img])
        | some creds =>
            let login := signIn (env.authRes creds.email creds.password) env.profileFetch
            let evs := [Event.gateCall img, Event.signInCall creds.email creds.password]
            match login.appUser, login.error with
            | some u, none => (.ok u, evs)
            | _, _ => (.error vaultCorruptMsg, evs)

/-! ## Vault lifecycle (`localStorage` writes over a device's history) -/

/-- The storage operations that touch the vault key: the write performed
by `enrollDevice` step 4, and the removal performed by `resetEnrollment`. -/
inductive VaultOp
  | storeCreds (email password : String)
  | clear
deriving DecidableEq, Repr

def applyVaultOp (st : AuthState) : VaultOp → AuthState
  | .storeCreds e p => { vault := some (vaultBlob e p) }
  | .clear => resetEnrollment st

/-- Device state after a history of vault operations, starting from a
fresh device (no key). -/
def runVaultOps (ops : List VaultOp) : AuthState :=
  ops.foldl applyVaultOp { vault := none }

def isStoreOp : VaultOp → Bool
  | .storeCreds _ _ => true
  | .clear => false

/-! ## Automatic verification loop (`Auth` component)

`handleAutoVerify` is the body of one verification attempt; the scan
machine models the fixed-interval trigger with its reentrancy guard
(`isScanningRef`).  A `tick` is one interval callback (with the
`captureImage` result), a `finish` is the resolution of the in-flight
attempt. -/

inductive Mode
  | CHECK
  | ENROLL
  | VERIFY
deriving DecidableEq, Repr

structure UiState where
  mode : Mode
  isLoading : Bool
  statusMessage : String
  uiError : Option String
  isScanning : Bool
  intervalActive : Bool
  loggedIn : Bool
deriving DecidableEq, Repr

/-- `handleAutoVerify`: mark the attempt in flight, run `faceLogin`;
on success stop the loop and establish the session; on any error report
the soft status and release the guard.  Total: the `catch` swallows
every failure. -/
def handleAutoVerify (env : AuthEnv) (authSt : AuthState) (ui : UiState) (img : String) :
    UiState × List Event :=
  let ui1 := { ui with
    isScanning := true
    isLoading := true
    statusMessage := "Scanning..."
    uiError := none }
  match faceLogin env authSt img with
  | (.ok _, evs) =>
      ({ ui1 with
        intervalActive := false
        statusMessage := "Identity Verified"
        loggedIn := true }, evs)
  | (.error _, evs) =>
      ({ ui1 with
        statusMessage := "Adjust face position..."
        isLoading := false
        isScanning := false }, evs)

/-- Scheduler-level actions: an interval tick (carrying the
`captureImage` result) or the completion of the outstanding attempt. -/
inductive ScanAction
  | tick (img : Option String)
  | finish (success : Bool)
deriving DecidableEq, Repr

/-- Scheduler-level state: current mode, whether an attempt is in
flight (`isScanningRef`), and whether the interval is armed. -/
structure ScanState where
  mode : Mode
  inFlight : Bool
  intervalActive : Bool
deriving DecidableEq, Repr

/-- One scheduler step.  A tick is dropped when the interval is cleared,
when an attempt is outstanding, when the mode left `VERIFY`, or when
capture yields nothing; otherwise it starts an attempt (one gate call).
A successful finish clears the interval (the guard flag is never
released on success); a failed finish releases the guard. -/
def scanStep (st : ScanState) : ScanAction → ScanState × List Event
  | .tick img =>
      if !st.intervalActive then (st, [])
      else if st.inFlight then (st, [])
      else if st.mode ≠ Mode.VERIFY then (st, [])
      else
        match img with
        | none => (st, [])
        | some i => ({ st with inFlight := true }, [.gateCall i])
  | .finish success =>
      if !st.inFlight then (st, [])
      else if success then ({ st with intervalActive := false }, [])
      else ({ st with inFlight := false }, [])

/-- Run a sequence of scheduler actions, concatenating emitted events. -/
def runScan (st : ScanState) : List ScanAction → ScanState × List Event
  | [] => (st, [])
  | a :: rest =>
      let step := scanStep st a
      let restRun := runScan step.1 rest
      (restRun.1, step.2 ++ restRun.2)

def isFinishAction : ScanAction → Bool
  | .finish _ => true
  | .tick _ => false

/-! ## Helper lemmas -/

theorem b64Encode_ne_empty (l : List Nat) (h : l ≠ []) : b64Encode l ≠ "" := by
  match l with
  | [] => exact absurd rfl h
  | [b1] =>
      intro he
      have h2 := congrArg String.data he
      simp [b64Encode] at h2
  | [b1, b2] =>
      intro he
      have h2 := congrArg String.data he
      simp [b64Encode] at h2
  | b1 :: b2 :: b3 :: rest =>
      intro he
      have h2 := congrArg String.data he
      simp [b64Encode, String.data_append] at h2

theorem jsonStringifyCreds_data_ne_nil (e p : String) :
    (jsonStringifyCreds e p).data ≠ [] := by
  intro h
  rw [jsonStringifyCreds] at h
  rw [String.data_append, String.data_append, String.data_append, String.data_append] at h
  simp [List.append_eq_nil] at h

theorem vaultBlob_ne_empty (e p : String) : vaultBlob e p ≠ "" := by
  show b64Encode ((jsonStringifyCreds e p).toList.map Char.toNat) ≠ ""
  apply b64Encode_ne_empty
  intro h
  exact jsonStringifyCreds_data_ne_nil e p (by simpa using h)

theorem runVaultOps_concat (ops : List VaultOp) (op : VaultOp) :
    runVaultOps (ops ++ [op]) = applyVaultOp (runVaultOps ops) op := by
  simp [runVaultOps, List.foldl_append]

theorem isDeviceEnrolled_after_store (st : AuthState) (e p : String) :
    isDeviceEnrolled (applyVaultOp st (.storeCreds e p)) = true := by
  simp [applyVaultOp, isDeviceEnrolled, vaultBlob_ne_empty]

/-! ## Claim theorems -/

/-- C3: `isDeviceEnrolled` is true iff the vault write of `enrollDevice`
happened more recently than `resetEnrollment`: over any history of vault
operations on a fresh device, enrollment status equals "the last
operation was a store"; in particular it is false initially and after
every reset, and true after every completed vault write. -/
theorem isDeviceEnrolled_iff_store_after_clear :
    (∀ ops : List VaultOp,
      isDeviceEnrolled (runVaultOps ops) = ((ops.getLast?).map isStoreOp).getD false) ∧
    isDeviceEnrolled (runVaultOps []) = false ∧
    (∀ ops : List VaultOp,
      isDeviceEnrolled (runVaultOps (ops ++ [.clear])) = false) ∧
    (∀ (ops : List VaultOp) (e p : String),
      isDeviceEnrolled (runVaultOps (ops ++ [.storeCreds e p])) = true) := by
  have main : ∀ ops : List VaultOp,
      isDeviceEnrolled (runVaultOps ops) = ((ops.getLast?).map isStoreOp).getD false := by
    intro ops
    induction ops using List.reverseRecOn with
    | nil => rfl
    | append_singleton ops op _ih =>
        rw [runVaultOps_concat, List.getLast?_concat]
        cases op with
        | storeCreds e p => simpa using isDeviceEnrolled_after_store (runVaultOps ops) e p
        | clear => simp [applyVaultOp, resetEnrollment, isDeviceEnrolled, isStoreOp]
  refine ⟨main, rfl, ?_, ?_⟩
  · intro ops
    rw [runVaultOps_concat]
    simp [applyVaultOp, resetEnrollment, isDeviceEnrolled]
  · intro ops e p
    rw [runVaultOps_concat]
    exact isDeviceEnrolled_after_store (runVaultOps ops) e p

/-- C4: after `addEntry`, the record is prepended to the local cache for
every possible remote outcome (success, error object, or thrown
exception); the function is total — it returns normally in every case
rather than raising. -/
theorem addEntry_always_caches (remote : InsertRes) (cache : List ReservoirEntry)
    (entry : ReservoirEntry) :
    (addEntry remote cache entry).1 = entry :: cache := rfl

/-- C5: a remote read failing with code `PGRST205` ("relation does not
exist") returns the local cache with `isMissingTable = true` and source
`LOCAL`; any other failure returns the local cache with
`isMissingTable = false`; only a successful remote read returns
remote-sourced (mapped) data. -/
theorem getEntries_error_classification (cache : List ReservoirEntry) :
    getEntries (.failure (some "PGRST205")) cache =
      { data := cache, source := .LOCAL, isMissingTable := true } ∧
    (∀ code : Option String, code ≠ some "PGRST205" →
      getEntries (.failure code) cache =
        { data := cache, source := .LOCAL, isMissingTable := false }) ∧
    (∀ rows : List DbRow,
      getEntries (.ok rows) cache =
        { data := rows.map mapDbRow, source := .MYSQL, isMissingTable := false }) := by
  refine ⟨rfl, ?_, fun rows => rfl⟩
  intro code hcode
  simp [getEntries, hcode]

/-- Witness for C5 at concrete inputs: a `PGRST205` failure, a distinct
failure code, an uncoded exception, and a successful read. -/
theorem getEntries_error_classification_witness :
    getEntries (.failure (some "PGRST205")) [] =
      { data := [], source := .LOCAL, isMissingTable := true } ∧
    getEntries (.failure (some "08006")) [] =
      { data := [], source := .LOCAL, isMissingTable := false } ∧
    getEntries (.failure none) [] =
      { data := [], source := .LOCAL, isMissingTable := false } ∧
    getEntries (.ok []) [] =
      { data := [], source := .MYSQL, isMissingTable := false } :=
  ⟨(getEntries_error_classification []).1,
   (getEntries_error_classification []).2.1 (some "08006") (by decide),
   (getEntries_error_classification []).2.1 none (by decide),
   (getEntries_error_classification []).2.2 []⟩

/-- C10: the biometric gate is total at its interface — its return type
is a plain `Verdict`, every throw inside the `try` being caught — and
each failure mode yields `authorized = false` with a non-empty reason:
a thrown remote call and an unparsable response both yield the
service-unavailable verdict, while a missing/empty response text yields
the parsed default verdict; an outage is thereby indistinguishable from
a rejection at this boundary.  The sole assumption is that `JSON.parse`
decodes the constant default literal to the default verdict. -/
theorem analyzeFaceForAccess_total_failure_modes
    (call : String → AiCallRes) (parse : String → Option Verdict) (img : String)
    (hdef : parse defaultVerdictJson = some defaultVerdict) :
    (∀ msg, call (stripDataUrlHeader img) = .throws msg →
      analyzeFaceForAccess call parse img = serviceUnavailableVerdict) ∧
    (call (stripDataUrlHeader img) = .responds none →
      analyzeFaceForAccess call parse img = defaultVerdict) ∧
    (call (stripDataUrlHeader img) = .responds (some "") →
      analyzeFaceForAccess call parse img = defaultVerdict) ∧
    (∀ s, s ≠ "" → call (stripDataUrlHeader img) = .responds (some s) → parse s = none →
      analyzeFaceForAccess call parse img = serviceUnavailableVerdict) ∧
    serviceUnavailableVerdict.authorized = false ∧
    serviceUnavailableVerdict.reason ≠ "" ∧
    defaultVerdict.authorized = false ∧
    defaultVerdict.reason ≠ "" := by
  refine ⟨?_, ?_, ?_, ?_, rfl, by decide, rfl, by decide⟩
  · intro msg hcall
    simp [analyzeFaceForAccess, analyzeBody, hcall]
  · intro hcall
    simp [analyzeFaceForAccess, analyzeBody, hcall, jsOrStr, hdef]
  · intro hcall
    simp [analyzeFaceForAccess, analyzeBody, hcall, jsOrStr, hdef]
  · intro s hs hcall hparse
    simp [analyzeFaceForAccess, analyzeBody, hcall, jsOrStr, hs, hparse]

/-- A parse oracle agreeing with `JSON.parse` on the default literal but
failing on the string `"garbage"`. -/
def garbageRejectingParse (s : String) : Option Verdict :=
  if s = "garbage" then none else some defaultVerdict

/-- Witness for C10: a parse oracle agreeing with `JSON.parse` on the
default literal, exercised on a thrown call, an empty response, and an
unparsable response. -/
theorem analyzeFaceForAccess_total_failure_modes_witness :
    analyzeFaceForAccess (fun _ => .throws "network") (fun _ => some defaultVerdict) "img"
      = serviceUnavailableVerdict ∧
    analyzeFaceForAccess (fun _ => .responds none) (fun _ => some defaultVerdict) "img"
      = defaultVerdict ∧
    analyzeFaceForAccess (fun _ => .responds (some "garbage")) garbageRejectingParse "img"
      = serviceUnavailableVerdict :=
  ⟨(analyzeFaceForAccess_total_failure_modes (fun _ => .throws "network")
      (fun _ => some defaultVerdict) "img" rfl).1 "network" rfl,
   (analyzeFaceForAccess_total_failure_modes (fun _ => .responds none)
      (fun _ => some defaultVerdict) "img" rfl).2.1 rfl,
   (analyzeFaceForAccess_total_failure_modes (fun _ => .responds (some "garbage"))
      garbageRejectingParse "img"
      (by rw [garbageRejectingParse, if_neg (by decide)])).2.2.2.1 "garbage" (by decide) rfl
      (by rw [garbageRejectingParse, if_pos rfl])⟩

/-- C6: in the verify flow, when the biometric gate rejects the captured
image (and the device is enrolled), `handleAutoVerify` makes no remote
sign-in call, establishes no session, leaves the mode at `VERIFY`, and
reports only the soft "Adjust face position..." status; it returns
normally (its result type carries no exception — the `catch` swallows
every `faceLogin` failure). -/
theorem handleAutoVerify_gate_reject_soft
    (env : AuthEnv) (authSt : AuthState) (ui : UiState) (img v : String)
    (hvault : authSt.vault = some v)
    (hgate : (analyzeFaceForAccess env.aiCall env.aiParse img).authorized = false)
    (hmode : ui.mode = Mode.VERIFY) :
    (handleAutoVerify env authSt ui img).1.mode = Mode.VERIFY ∧
    (handleAutoVerify env authSt ui img).1.loggedIn = ui.loggedIn ∧
    (handleAutoVerify env authSt ui img).1.statusMessage = "Adjust face position..." ∧
    (handleAutoVerify env authSt ui img).2 = [Event.gateCall img] ∧
    (∀ e p, Event.signInCall e p ∉ (handleAutoVerify env authSt ui img).2) := by
  have hrun : faceLogin env authSt img =
      (.error ("Access Denied: " ++ (analyzeFaceForAccess env.aiCall env.aiParse img).reason),
        [Event.gateCall img]) := by
    simp [faceLogin, hvault, hgate]
  refine ⟨?_, ?_, ?_, ?_, ?_⟩ <;>
    simp [handleAutoVerify, hrun, hmode]

/-- An environment whose gate rejects every image. -/
def gateRejectEnv : AuthEnv :=
  ⟨fun _ => .responds (some "r"), fun _ => some ⟨false, "not a live face"⟩, 0, "", "",
    fun _ _ _ _ => .ok, fun _ _ => .noUser, fun _ => none, fun _ => none⟩

/-- A UI state sitting in `VERIFY` mode with no session. -/
def verifyingUi : UiState := ⟨Mode.VERIFY, false, "", none, false, true, false⟩

/-- Witness for C6: a rejecting gate on an enrolled device in `VERIFY`
mode. -/
theorem handleAutoVerify_gate_reject_soft_witness :
    (handleAutoVerify gateRejectEnv ⟨some "blob"⟩ verifyingUi "img").1.mode = Mode.VERIFY ∧
    (handleAutoVerify gateRejectEnv ⟨some "blob"⟩ verifyingUi "img").1.loggedIn = false :=
  ⟨(handleAutoVerify_gate_reject_soft gateRejectEnv ⟨some "blob"⟩ verifyingUi "img" "blob"
      rfl rfl rfl).1,
   (handleAutoVerify_gate_reject_soft gateRejectEnv ⟨some "blob"⟩ verifyingUi "img" "blob"
      rfl rfl rfl).2.1⟩

/-- C7: if the gate rejects the image or the remote registration fails,
`enrollDevice` fails with the corresponding error, the vault is left
exactly as it was, and the device's enrolled status is unchanged. -/
theorem enrollDevice_failure_leaves_vault
    (env : AuthEnv) (st : AuthState) (name : String) (role : UserRole) (img : String) :
    ((analyzeFaceForAccess env.aiCall env.aiParse img).authorized = false →
      (enrollDevice env st name role img).1 =
        .error ("Face Enrollment Failed: " ++
          (analyzeFaceForAccess env.aiCall env.aiParse img).reason) ∧
      (enrollDevice env st name role img).2.1 = st ∧
      isDeviceEnrolled (enrollDevice env st name role img).2.1 = isDeviceEnrolled st) ∧
    (∀ e, (analyzeFaceForAccess env.aiCall env.aiParse img).authorized = true →
      signUp (env.signUpRes (generatedEmail env.now env.rand1)
        (generatedPassword env.now env.rand2) name role) = .error e →
      (enrollDevice env st name role img).1 = .error e ∧
      (enrollDevice env st name role img).2.1 = st ∧
      isDeviceEnrolled (enrollDevice env st name role img).2.1 = isDeviceEnrolled st) := by
  constructor
  · intro hgate
    refine ⟨?_, ?_, ?_⟩ <;> simp [enrollDevice, hgate]
  · intro e hgate hsign
    refine ⟨?_, ?_, ?_⟩ <;> simp [enrollDevice, hgate, hsign]

/-- An environment whose gate rejects every image (enrollment run). -/
def enrollRejectEnv : AuthEnv :=
  ⟨fun _ => .responds (some "r"), fun _ => some ⟨false, "blurry"⟩, 7, "x", "y",
    fun _ _ _ _ => .ok, fun _ _ => .noUser, fun _ => none, fun _ => none⟩

/-- An environment whose gate authorizes but whose remote registration
fails with the trigger misconfiguration. -/
def enrollRegFailEnv : AuthEnv :=
  ⟨fun _ => .responds (some "r"), fun _ => some ⟨true, "ok"⟩, 7, "x", "y",
    fun _ _ _ _ => .errConfig, fun _ _ => .noUser, fun _ => none, fun _ => none⟩

/-- Witness for C7: a rejecting gate, and an authorizing gate with a
failing registration, both on a fresh device. -/
theorem enrollDevice_failure_leaves_vault_witness :
    (enrollDevice enrollRejectEnv ⟨none⟩ "J. Perera" UserRole.ADMIN "img").2.1 = ⟨none⟩ ∧
    (enrollDevice enrollRegFailEnv ⟨none⟩ "J. Perera" UserRole.ADMIN "img").1 =
      .error dbConfigErrorMsg :=
  ⟨((enrollDevice_failure_leaves_vault enrollRejectEnv ⟨none⟩ "J. Perera" UserRole.ADMIN
      "img").1 rfl).2.1,
   ((enrollDevice_failure_leaves_vault enrollRegFailEnv ⟨none⟩ "J. Perera" UserRole.ADMIN
      "img").2 dbConfigErrorMsg rfl rfl).1⟩

/-- C8: while an attempt is outstanding (`inFlight = true`), an interval
tick is skipped by the reentrancy guard — it changes nothing and starts
no gate call — no matter how many ticks fire; consequently, until the
outstanding attempt finishes, a whole trace of ticks emits no gate call
at all. -/
theorem scanLoop_reentrancy_guard :
    (∀ (st : ScanState) (img : Option String),
      st.inFlight = true → scanStep st (.tick img) = (st, [])) ∧
    (∀ (st : ScanState) (acts : List ScanAction),
      st.inFlight = true → (∀ a ∈ acts, isFinishAction a = false) →
      (runScan st acts).1 = st ∧ (runScan st acts).2 = []) := by
  have tickSkip : ∀ (st : ScanState) (img : Option String),
      st.inFlight = true → scanStep st (.tick img) = (st, []) := by
    intro st img h
    cases hi : st.intervalActive <;> simp [scanStep, h, hi]
  refine ⟨tickSkip, ?_⟩
  intro st acts h hnf
  induction acts with
  | nil => exact ⟨rfl, rfl⟩
  | cons a rest ih =>
      cases a with
      | tick img =>
          have hstep := tickSkip st img h
          have hrest := ih (fun b hb => hnf b (List.mem_cons_of_mem _ hb))
          simp [runScan, hstep, hrest.1, hrest.2]
      | finish s =>
          have := hnf (.finish s) (List.mem_cons_self _ _)
          simp [isFinishAction] at this

/-- Witness for C8: a tick firing while an attempt is in flight, and a
trace of two further ticks, from `VERIFY` mode with the guard set. -/
theorem scanLoop_reentrancy_guard_witness :
    scanStep ⟨Mode.VERIFY, true, true⟩ (.tick (some "img")) = (⟨Mode.VERIFY, true, true⟩, []) ∧
    (runScan ⟨Mode.VERIFY, true, true⟩ [.tick (some "a"), .tick none]).2 = [] :=
  ⟨scanLoop_reentrancy_guard.1 ⟨Mode.VERIFY, true, true⟩ (some "img") rfl,
   (scanLoop_reentrancy_guard.2 ⟨Mode.VERIFY, true, true⟩ [.tick (some "a"), .tick none]
      rfl (by decide)).2⟩

/-- C9: the synthetic credential pair depends only on the clock and the
two random draws: two enrollment runs agreeing on `now`, `rand1` and
`rand2`, with arbitrary (different) operator names, roles and face
images both accepted by the gate, register with the same email and the
same password — and those are `generatedEmail`/`generatedPassword`,
functions that take neither the name nor the image. -/
theorem enroll_credentials_independent_of_name_face
    (env1 env2 : AuthEnv) (st1 st2 : AuthState)
    (name1 name2 : String) (role1 role2 : UserRole) (img1 img2 : String)
    (hnow : env1.now = env2.now) (hr1 : env1.rand1 = env2.rand1)
    (hr2 : env1.rand2 = env2.rand2)
    (hg1 : (analyzeFaceForAccess env1.aiCall env1.aiParse img1).authorized = true)
    (hg2 : (analyzeFaceForAccess env2.aiCall env2.aiParse img2).authorized = true) :
    ∃ email password,
      Event.signUpCall email password name1 role1 ∈
        (enrollDevice env1 st1 name1 role1 img1).2.2 ∧
      Event.signUpCall email password name2 role2 ∈
        (enrollDevice env2 st2 name2 role2 img2).2.2 ∧
      (∀ e p n r, Event.signUpCall e p n r ∈ (enrollDevice env1 st1 name1 role1 img1).2.2 →
        e = email ∧ p = password) ∧
      (∀ e p n r, Event.signUpCall e p n r ∈ (enrollDevice env2 st2 name2 role2 img2).2.2 →
        e = email ∧ p = password) := by
  have trace : ∀ (env : AuthEnv) (st : AuthState) (name : String) (role : UserRole)
      (img : String), (analyzeFaceForAccess env.aiCall env.aiParse img).authorized = true →
      (enrollDevice env st name role img).2.2 =
        [Event.gateCall img,
         Event.signUpCall (generatedEmail env.now env.rand1)
           (generatedPassword env.now env.rand2) name role] ∨
      (enrollDevice env st name role img).2.2 =
        [Event.gateCall img,
         Event.signUpCall (generatedEmail env.now env.rand1)
           (generatedPassword env.now env.rand2) name role,
         Event.signInCall (generatedEmail env.now env.rand1)
           (generatedPassword env.now env.rand2)] := by
    intro env st name role img hg
    cases hsu : signUp (env.signUpRes (generatedEmail env.now env.rand1)
        (generatedPassword env.now env.rand2) name role) with
    | error e => left; simp [enrollDevice, hg, hsu]
    | ok u =>
        right
        rcases ha : (signIn (env.authRes (generatedEmail env.now env.rand1)
            (generatedPassword env.now env.rand2)) env.profileFetch).appUser with _ | u2 <;>
          rcases he : (signIn (env.authRes (generatedEmail env.now env.rand1)
            (generatedPassword env.now env.rand2)) env.profileFetch).error with _ | msg <;>
          simp [enrollDevice, hg, hsu, ha, he]
  refine ⟨generatedEmail env1.now env1.rand1, generatedPassword env1.now env1.rand2,
    ?_, ?_, ?_, ?_⟩
  · rcases trace env1 st1 name1 role1 img1 hg1 with h | h <;> simp [h]
  · rcases trace env2 st2 name2 role2 img2 hg2 with h | h <;>
      rw [hnow, hr1, hr2] <;> simp [h]
  · intro e p n r hmem
    rcases trace env1 st1 name1 role1 img1 hg1 with h | h <;> rw [h] at hmem <;>
      simp at hmem <;> exact ⟨hmem.1, hmem.2.1⟩
  · intro e p n r hmem
    rcases trace env2 st2 name2 role2 img2 hg2 with h | h <;> rw [h] at hmem <;>
      rw [hnow, hr1, hr2] <;> simp at hmem <;> exact ⟨hmem.1, hmem.2.1⟩

/-- An environment whose gate authorizes and whose registration and
login both succeed. -/
def enrollOkEnv : AuthEnv :=
  ⟨fun _ => .responds (some "r"), fun _ => some ⟨true, "ok"⟩, 7, "x", "y",
    fun _ _ _ _ => .ok, fun _ _ => .noUser, fun _ => none, fun _ => none⟩

/-- Witness for C9: two runs in the same environment with different
names, roles and face images. -/
theorem enroll_credentials_independent_of_name_face_witness :
    ∃ email password,
      Event.signUpCall email password "Alice" UserRole.ADMIN ∈
        (enrollDevice enrollOkEnv ⟨none⟩ "Alice" UserRole.ADMIN "img1").2.2 ∧
      Event.signUpCall email password "Bob" UserRole.DATA_ENTRY_WORKER ∈
        (enrollDevice enrollOkEnv ⟨none⟩ "Bob" UserRole.DATA_ENTRY_WORKER "img2").2.2 ∧
      (∀ e p n r, Event.signUpCall e p n r ∈
          (enrollDevice enrollOkEnv ⟨none⟩ "Alice" UserRole.ADMIN "img1").2.2 →
        e = email ∧ p = password) ∧
      (∀ e p n r, Event.signUpCall e p n r ∈
          (enrollDevice enrollOkEnv ⟨none⟩ "Bob" UserRole.DATA_ENTRY_WORKER "img2").2.2 →
        e = email ∧ p = password) :=
  enroll_credentials_independent_of_name_face enrollOkEnv enrollOkEnv ⟨none⟩ ⟨none⟩
    "Alice" "Bob" UserRole.ADMIN UserRole.DATA_ENTRY_WORKER "img1" "img2"
    rfl rfl rfl rfl rfl

/-! ### Profile-poll lemmas (for C1) -/

theorem profilePollAux_attempts_le (fuel : Nat) (fetch : Nat → Option ProfileRow)
    (attempts : Nat) : (profilePollAux fetch attempts fuel).2.1 ≤ attempts + fuel := by
  induction fuel generalizing attempts with
  | zero => simp [profilePollAux]
  | succ remaining ih =>
      cases hf : fetch attempts with
      | some row => simp [profilePollAux, hf]
      | none =>
          by_cases hr : remaining = 0
          · simp [profilePollAux, hf, hr]
          · have := ih (attempts + 1)
            simp [profilePollAux, hf, hr]
            omega

theorem profilePollAux_attempts_ge (fuel : Nat) (fetch : Nat → Option ProfileRow)
    (attempts : Nat) (h : fuel ≠ 0) :
    attempts + 1 ≤ (profilePollAux fetch attempts fuel).2.1 := by
  induction fuel generalizing attempts with
  | zero => exact absurd rfl h
  | succ remaining ih =>
      cases hf : fetch attempts with
      | some row => simp [profilePollAux, hf]
      | none =>
          by_cases hr : remaining = 0
          · simp [profilePollAux, hf, hr]
          · have := ih (attempts + 1) hr
            simp [profilePollAux, hf, hr]
            omega

theorem profilePollAux_delays (fuel : Nat) (fetch : Nat → Option ProfileRow)
    (attempts : Nat) :
    (profilePollAux fetch attempts fuel).2.2 =
      List.replicate ((profilePollAux fetch attempts fuel).2.1 - attempts - 1) delayMs := by
  induction fuel generalizing attempts with
  | zero => simp [profilePollAux]
  | succ remaining ih =>
      cases hf : fetch attempts with
      | some row => simp [profilePollAux, hf]
      | none =>
          by_cases hr : remaining = 0
          · simp [profilePollAux, hf, hr]
          · have hge := profilePollAux_attempts_ge remaining fetch (attempts + 1) hr
            have heq : (profilePollAux fetch (attempts + 1) remaining).2.1 - attempts - 1 =
                ((profilePollAux fetch (attempts + 1) remaining).2.1 - (attempts + 1) - 1) + 1 := by
              omega
            simp [profilePollAux, hf, hr, ih (attempts + 1), heq, List.replicate_succ]

theorem profilePollAux_first_success (fuel : Nat) (fetch : Nat → Option ProfileRow)
    (attempts i : Nat) (row : ProfileRow) (hle : attempts ≤ i) (hlt : i < attempts + fuel)
    (hnone : ∀ j, attempts ≤ j → j < i → fetch j = none) (hrow : fetch i = some row) :
    (profilePollAux fetch attempts fuel).1 = some (mapProfileRow row) := by
  induction fuel generalizing attempts with
  | zero => omega
  | succ remaining ih =>
      by_cases hi : attempts = i
      · subst hi
        simp [profilePollAux, hrow]
      · have hf : fetch attempts = none := hnone attempts (Nat.le_refl _) (by omega)
        by_cases hr : remaining = 0
        · omega
        · have := ih (attempts + 1) (by omega) (by omega)
            (fun j hj1 hj2 => hnone j (by omega) hj2)
          simp [profilePollAux, hf, hr, this]

theorem profilePollAux_all_fail (fuel : Nat) (fetch : Nat → Option ProfileRow)
    (attempts : Nat) (hnone : ∀ j, attempts ≤ j → j < attempts + fuel → fetch j = none) :
    (profilePollAux fetch attempts fuel).1 = none := by
  induction fuel generalizing attempts with
  | zero => simp [profilePollAux]
  | succ remaining ih =>
      have hf : fetch attempts = none := hnone attempts (Nat.le_refl _) (by omega)
      by_cases hr : remaining = 0
      · simp [profilePollAux, hf, hr]
      · have := ih (attempts + 1) (fun j hj1 hj2 => hnone j (by omega) (by omega))
        simp [profilePollAux, hf, hr, this]

/-- C1: `getUserProfile` polls the remote profile store at most 5 times,
sleeping a fixed 500ms between consecutive attempts (one fewer sleep
than attempts made); the first successful row is returned mapped; if all
5 attempts fail it synthesizes a profile from the fallback metadata when
supplied — with role defaulting to `DATA_ENTRY_WORKER` when absent — and
otherwise returns the profile-unavailable error with no profile. -/
theorem getUserProfile_bounded_retry_fallback
    (fetch : Nat → Option ProfileRow) (userId : String) :
    maxAttempts = 5 ∧
    delayMs = 500 ∧
    (profilePoll fetch 0).2.1 ≤ 5 ∧
    (profilePoll fetch 0).2.2 =
      List.replicate ((profilePoll fetch 0).2.1 - 1) delayMs ∧
    (∀ i row, i < 5 → (∀ j, j < i → fetch j = none) → fetch i = some row →
      ∀ fb, getUserProfile fetch userId fb =
        { appUser := some (mapProfileRow row), error := none }) ∧
    ((∀ j, j < 5 → fetch j = none) →
      (∀ meta, getUserProfile fetch userId (some meta) =
        { appUser := some (fallbackUser userId meta), error := none }) ∧
      (∀ meta, meta.role = none →
        (fallbackUser userId meta).role = UserRole.DATA_ENTRY_WORKER) ∧
      getUserProfile fetch userId none =
        { appUser := none, error := some profileUnavailableMsg }) := by
  refine ⟨rfl, rfl, ?_, ?_, ?_, ?_⟩
  · simpa [profilePoll, maxAttempts] using profilePollAux_attempts_le 5 fetch 0
  · simpa [profilePoll, maxAttempts] using profilePollAux_delays 5 fetch 0
  · intro i row hi hnone hrow fb
    have hfirst : (profilePoll fetch 0).1 = some (mapProfileRow row) := by
      simpa [profilePoll, maxAttempts] using
        profilePollAux_first_success 5 fetch 0 i row (Nat.zero_le _) (by omega)
          (fun j _ hj2 => hnone j hj2) hrow
    simp [getUserProfile, hfirst]
  · intro hnone
    have hfail : (profilePoll fetch 0).1 = none := by
      simpa [profilePoll, maxAttempts] using
        profilePollAux_all_fail 5 fetch 0 (fun j _ hj2 => hnone j (by omega))
    refine ⟨?_, ?_, ?_⟩
    · intro meta; simp [getUserProfile, hfail]
    · intro meta hrole; simp [fallbackUser, hrole]
    · simp [getUserProfile, hfail]

/-- A sample remote profile row. -/
def sampleRow : ProfileRow := ⟨"u7", "Nimal", UserRole.ADMIN, "avatar"⟩

/-- Witness for C1: a store answering on the first attempt, and a store
that never answers, with and without fallback metadata (role absent). -/
theorem getUserProfile_bounded_retry_fallback_witness :
    getUserProfile (fun k => if k = 0 then some sampleRow else none) "u7" none =
      { appUser := some (mapProfileRow sampleRow), error := none } ∧
    getUserProfile (fun _ => none) "u7" (some ⟨some "Ann", none, none⟩) =
      { appUser := some (fallbackUser "u7" ⟨some "Ann", none, none⟩), error := none } ∧
    (fallbackUser "u7" ⟨some "Ann", none, none⟩).role = UserRole.DATA_ENTRY_WORKER ∧
    getUserProfile (fun _ => none) "u7" none =
      { appUser := none, error := some profileUnavailableMsg } :=
  ⟨(getUserProfile_bounded_retry_fallback (fun k => if k = 0 then some sampleRow else none)
      "u7").2.2.2.2.1 0 sampleRow (by decide)
      (fun j hj => absurd hj (Nat.not_lt_zero j)) rfl none,
   ((getUserProfile_bounded_retry_fallback (fun _ => none) "u7").2.2.2.2.2
      (fun j _ => rfl)).1 ⟨some "Ann", none, none⟩,
   ((getUserProfile_bounded_retry_fallback (fun _ => none) "u7").2.2.2.2.2
      (fun j _ => rfl)).2.1 ⟨some "Ann", none, none⟩ rfl,
   ((getUserProfile_bounded_retry_fallback (fun _ => none) "u7").2.2.2.2.2
      (fun j _ => rfl)).2.2⟩

/-! ### Face-login error classes (C2)

In the source, steps 3 (vault decode) and 4 (cloud auth) of `faceLogin`
share one `try`; the `catch` rethrows the vault-corrupt message, so a
remote authentication failure is reported exactly like a corrupted
vault. -/

/-- An environment in which the vault decodes fine but the remote
authentication step fails. -/
def authFailEnv : AuthEnv :=
  ⟨fun _ => .responds (some "r"), fun _ => some ⟨true, "ok"⟩, 0, "", "",
    fun _ _ _ _ => .ok, fun _ _ => .err "network down", fun _ => none,
    fun _ => some ⟨"e", "p"⟩⟩

/-- An environment in which decoding the vault blob itself fails. -/
def decodeFailEnv : AuthEnv :=
  ⟨fun _ => .responds (some "r"), fun _ => some ⟨true, "ok"⟩, 0, "", "",
    fun _ _ _ _ => .ok, fun _ _ => .err "network down", fun _ => none,
    fun _ => none⟩

/-- Counterexample to C2 as stated: on an enrolled device whose vault
blob decodes successfully, with the gate authorizing, a failure of the
remote authentication step makes `faceLogin` fail with the vault-corrupt
"re-enroll required" error — not with a distinct soft outcome — so
"VaultCorrupt exactly when decoding the vault blob fails" is false. -/
theorem faceLogin_authfail_reported_as_corrupt :
    authFailEnv.vaultDecode "blob" = some ⟨"e", "p"⟩ ∧
    (faceLogin authFailEnv ⟨some "blob"⟩ "img").1 = .error vaultCorruptMsg :=
  ⟨rfl, rfl⟩

/-- C2 amended: with the vault present and the gate authorizing,
`faceLogin` fails with the vault-corrupt message exactly when decoding
fails **or** the remote authentication step fails (error or missing
user) — the shared `catch` reports both identically — and succeeds with
the signed-in user otherwise; a gate rejection instead yields the
"Access Denied" error. -/
theorem faceLogin_corrupt_error_characterization
    (env : AuthEnv) (st : AuthState) (img v : String) (hvault : st.vault = some v) :
    ((analyzeFaceForAccess env.aiCall env.aiParse img).authorized = false →
      (faceLogin env st img).1 =
        .error ("Access Denied: " ++
          (analyzeFaceForAccess env.aiCall env.aiParse img).reason)) ∧
    ((analyzeFaceForAccess env.aiCall env.aiParse img).authorized = true →
      (env.vaultDecode v = none →
        (faceLogin env st img).1 = .error vaultCorruptMsg) ∧
      (∀ creds, env.vaultDecode v = some creds →
        (((signIn (env.authRes creds.email creds.password) env.profileFetch).appUser = none ∨
          (signIn (env.authRes creds.email creds.password) env.profileFetch).error ≠ none) →
          (faceLogin env st img).1 = .error vaultCorruptMsg) ∧
        (∀ u, (signIn (env.authRes creds.email creds.password) env.profileFetch).appUser
            = some u →
          (signIn (env.authRes creds.email creds.password) env.profileFetch).error = none →
          (faceLogin env st img).1 = .ok u))) := by
  constructor
  · intro hgate
    simp [faceLogin, hvault, hgate]
  · intro hgate
    constructor
    · intro hdec
      simp [faceLogin, hvault, hgate, hdec]
    · intro creds hdec
      constructor
      · intro hfail
        rcases hfail with hnone | herr
        · simp [faceLogin, hvault, hgate, hdec, hnone]
        · rcases ha : (signIn (env.authRes creds.email creds.password)
              env.profileFetch).appUser with _ | u
          · simp [faceLogin, hvault, hgate, hdec, ha]
          · rcases he : (signIn (env.authRes creds.email creds.password)
                env.profileFetch).error with _ | m
            · exact absurd he herr
            · simp [faceLogin, hvault, hgate, hdec, ha, he]
      · intro u hu herr
        simp [faceLogin, hvault, hgate, hdec, hu, herr]

/-- Witness for the amended C2: the decode-failure and the remote
auth-failure environments both produce the vault-corrupt error. -/
theorem faceLogin_corrupt_error_characterization_witness :
    (faceLogin decodeFailEnv ⟨some "blob"⟩ "img").1 = .error vaultCorruptMsg ∧
    (faceLogin authFailEnv ⟨some "blob"⟩ "img").1 = .error vaultCorruptMsg :=
  ⟨((faceLogin_corrupt_error_characterization decodeFailEnv ⟨some "blob"⟩ "img" "blob"
      rfl).2 rfl).1 rfl,
   (((faceLogin_corrupt_error_characterization authFailEnv ⟨some "blob"⟩ "img" "blob"
      rfl).2 rfl).2 ⟨"e", "p"⟩ rfl).1 (Or.inl rfl)⟩

end Reservoir
